import Mathlib

/-!
Shallow embedding of the measurement widget in
`src/src/medical/measurement-widget.tsx` (repository `rjsf-shadcn`).

Numbers are modelled as exact rationals (`ℚ`).  JavaScript's
`Number(x.toFixed(d))` is modelled by `roundTo d`: ECMAScript's `toFixed`
picks the integer `n` minimising `|n / 10^d - x|` and on a tie picks the
larger `n`, which is exactly Mathlib's `round` (round half towards +∞)
applied to `x * 10^d`.

JavaScript truthiness is modelled explicitly wherever the source relies on
it: `!v` is true for `null`/`undefined`, the number `0`, the empty string
and `false`; an object is always truthy.  All functions are total, which
mirrors the source's no-throw behaviour on these code paths.
-/

/-- The clinical status derived by the widget (`validationState` values
`'normal' | 'warning' | 'critical'`; `null` is modelled by `Option`). -/
inductive Status where
  | normal
  | warning
  | critical
deriving DecidableEq, Repr

/-- A `{min, max}` range from `MeasurementConfig.ranges`. -/
structure UnitRange where
  min : ℚ
  max : ℚ

/-- The optional `ranges` record: `{ normal?, critical? }`, both in the base unit. -/
structure Ranges where
  normal : Option UnitRange
  critical : Option UnitRange

/-- A unit's `conversion` descriptor: a linear scale factor (base → unit)
or an arbitrary one-argument function (base → unit). -/
inductive ConvDescriptor where
  | linear (f : ℚ)
  | fn (g : ℚ → ℚ)

/-- One entry of `MeasurementConfig.units`:
`{ value, label, conversion? }`. -/
structure UnitConfig where
  value : String
  label : String
  conversion : Option ConvDescriptor

/-- `MeasurementConfig` from the source. -/
structure MeasurementConfig where
  type : String
  defaultUnit : String
  units : List UnitConfig
  ranges : Option Ranges
  precision : Option ℕ

/-- `MeasurementValue`: `{ value: number | null, unit: string }`. -/
structure MeasurementValue where
  value : Option ℚ
  unit : String
deriving DecidableEq, Repr

/-- The raw form value handed to the widget by the form engine: absent
(`undefined`/`null`), a number, a string, a boolean, or an object carrying
optional `value`/`unit` fields. -/
inductive RawValue where
  | absent
  | num (x : ℚ)
  | str (s : String)
  | bool (b : Bool)
  | obj (value : Option ℚ) (unit : Option String)
deriving DecidableEq, Repr

/-- JavaScript falsiness of a raw form value (`!value` in the source):
`null`/`undefined`, `0`, `''` and `false` are falsy; objects are truthy. -/
def jsFalsy : RawValue → Bool
  | .absent => true
  | .num x => decide (x = 0)
  | .str s => decide (s = "")
  | .bool b => !b
  | .obj _ _ => false

/-- `Number(x.toFixed(d))` on exact rationals: round `x` to `d` decimal
digits, ties towards +∞ (ECMAScript `toFixed` tie rule). -/
def roundTo (d : ℕ) (x : ℚ) : ℚ :=
  ((round (x * 10 ^ d) : ℤ) : ℚ) / 10 ^ d

/-- The digit count actually used by `convertValue`'s final
`toFixed(config.precision || 1)`: JavaScript `||` treats the number `0`
as falsy, so precision `0` (and absent precision) both yield `1`. -/
def effPrecision (c : MeasurementConfig) : ℕ :=
  match c.precision with
  | some p => if p = 0 then 1 else p
  | none => 1

-- The five entries of MEASUREMENT_CONFIGS, with the exact literals of the
-- source (decimal literals are exact in ℚ).

/-- `MEASUREMENT_CONFIGS.weight`. -/
def weightConfig : MeasurementConfig :=
  { type := "weight"
    defaultUnit := "kg"
    units :=
      [ ⟨"kg", "kg", none⟩
      , ⟨"lb", "lbs", some (.linear 2.20462)⟩
      , ⟨"g", "g", some (.linear 1000)⟩ ]
    ranges := some ⟨some ⟨40, 200⟩, some ⟨30, 300⟩⟩
    precision := some 1 }

/-- `MEASUREMENT_CONFIGS.height`. -/
def heightConfig : MeasurementConfig :=
  { type := "height"
    defaultUnit := "cm"
    units :=
      [ ⟨"cm", "cm", none⟩
      , ⟨"in", "inches", some (.linear 0.393701)⟩
      , ⟨"m", "m", some (.linear 0.01)⟩ ]
    ranges := some ⟨some ⟨140, 220⟩, some ⟨100, 250⟩⟩
    precision := some 1 }

/-- `MEASUREMENT_CONFIGS.heart_rate`. -/
def heartRateConfig : MeasurementConfig :=
  { type := "heart_rate"
    defaultUnit := "bpm"
    units := [⟨"bpm", "BPM", none⟩]
    ranges := some ⟨some ⟨60, 100⟩, some ⟨40, 200⟩⟩
    precision := some 0 }

/-- `MEASUREMENT_CONFIGS.temperature`; fahrenheit's descriptor is the
function `c ↦ c * 9/5 + 32`. -/
def temperatureConfig : MeasurementConfig :=
  { type := "temperature"
    defaultUnit := "celsius"
    units :=
      [ ⟨"celsius", "°C", none⟩
      , ⟨"fahrenheit", "°F", some (.fn (fun c => c * 9 / 5 + 32))⟩ ]
    ranges := some ⟨some ⟨36.1, 37.2⟩, some ⟨35, 42⟩⟩
    precision := some 1 }

/-- `MEASUREMENT_CONFIGS.blood_glucose`. -/
def bloodGlucoseConfig : MeasurementConfig :=
  { type := "blood_glucose"
    defaultUnit := "mg/dL"
    units :=
      [ ⟨"mg/dL", "mg/dL", none⟩
      , ⟨"mmol/L", "mmol/L", some (.linear 0.0555)⟩ ]
    ranges := some ⟨some ⟨70, 140⟩, some ⟨50, 400⟩⟩
    precision := some 0 }

/-- `MEASUREMENT_CONFIGS` as an association list (keys in source order). -/
def MEASUREMENT_CONFIGS : List (String × MeasurementConfig) :=
  [ ("weight", weightConfig)
  , ("height", heightConfig)
  , ("heart_rate", heartRateConfig)
  , ("temperature", temperatureConfig)
  , ("blood_glucose", bloodGlucoseConfig) ]

/-- `MEASUREMENT_CONFIGS[measurementType] || MEASUREMENT_CONFIGS.weight`:
an unknown key yields `undefined`, which is falsy, so the weight
configuration is used. -/
def getConfig (name : String) : MeasurementConfig :=
  match MEASUREMENT_CONFIGS.find? (fun p => p.1 == name) with
  | some p => p.2
  | none => weightConfig

/-- `config.units.find(u => u.value === unit)`. -/
def findUnit (c : MeasurementConfig) (u : String) : Option UnitConfig :=
  c.units.find? (fun uc => uc.value == u)

/-- The first let-block of `convertValue`: normalise `val` to the base
unit.  The guard `if (fromUnitConfig.conversion)` uses JS truthiness, so a
linear factor equal to `0` would be skipped; a function descriptor on the
source unit leaves the value unchanged
(`baseValue = val; // Simplified for now`). -/
def toBase (fu : UnitConfig) (val : ℚ) : ℚ :=
  match fu.conversion with
  | none => val
  | some (.fn _) => val
  | some (.linear f) => if f = 0 then val else val / f

/-- The second let-block of `convertValue`: denormalise from the base unit
to the target unit (`targetValue`); a function descriptor is applied in
its forward (base → unit) direction. -/
def fromBase (tu : UnitConfig) (base : ℚ) : ℚ :=
  match tu.conversion with
  | none => base
  | some (.fn g) => g base
  | some (.linear f) => if f = 0 then base else base * f

/-- `convertValue(val, fromUnit, toUnit)` from the source: identity when
the units coincide or either lookup fails; otherwise normalise, then
denormalise, then round with `toFixed(config.precision || 1)`. -/
def convertValue (c : MeasurementConfig) (val : ℚ)
    (fromUnit toUnit : String) : ℚ :=
  if fromUnit = toUnit then val
  else
    match findUnit c fromUnit, findUnit c toUnit with
    | none, _ => val
    | some _, none => val
    | some fu, some tu => roundTo (effPrecision c) (fromBase tu (toBase fu val))

/-- The linear scale factor a unit descriptor denotes: an absent
`conversion` means the unit is the base unit (factor `1`); a function
descriptor has no linear factor. -/
def descrFactor (uc : UnitConfig) : Option ℚ :=
  match uc.conversion with
  | none => some 1
  | some (.linear f) => some f
  | some (.fn _) => none

/-- The linear factor of a named unit of a configuration, when the unit
exists and is linearly convertible. -/
def linFactorOf (c : MeasurementConfig) (u : String) : Option ℚ :=
  (findUnit c u).bind descrFactor

/-- The base-unit normalisation inside `validationState`: the value is
divided by the unit's conversion factor only when the descriptor exists,
is truthy (nonzero) and is a *number*; function descriptors and missing
units leave the value unchanged. -/
def normalizeForValidation (c : MeasurementConfig) (val : ℚ)
    (u : String) : ℚ :=
  match findUnit c u with
  | some uc =>
    match uc.conversion with
    | some (.linear f) => if f = 0 then val else val / f
    | _ => val
  | none => val

/-- Is `v` outside the range `r` (strictly below `min` or above `max`)?
`none` (range not configured) is never outside. -/
def rangeOutside (r : Option UnitRange) (v : ℚ) : Bool :=
  match r with
  | some r => decide (v < r.min) || decide (v > r.max)
  | none => false

/-- The `validationState` memo: `null` when `!currentValue.value` (absent
*or zero* magnitude — JS truthiness) or when `config.ranges` is absent;
otherwise the value is normalised to the base unit and checked against the
critical range first, then the normal range. -/
def validationState (c : MeasurementConfig) (v : MeasurementValue) :
    Option Status :=
  match v.value with
  | none => none
  | some val =>
    if val = 0 then none
    else
      match c.ranges with
      | none => none
      | some ranges =>
        let base := normalizeForValidation c val v.unit
        if rangeOutside ranges.critical base then some .critical
        else if rangeOutside ranges.normal base then some .warning
        else some .normal

/-- The `parsedValue` memo: `!value` (falsy raw values, including the
number `0`) maps to an absent magnitude; an object passes its fields
through `(value).value || null` and `(value).unit || config.defaultUnit`
(both with JS-truthiness defaulting); a (nonzero) number keeps its value;
anything else maps to the absent magnitude. -/
def parseValue (c : MeasurementConfig) (v : RawValue) : MeasurementValue :=
  if jsFalsy v then ⟨none, c.defaultUnit⟩
  else
    match v with
    | .obj mv mu =>
      ⟨match mv with
        | some x => if x = 0 then none else some x
        | none => none,
       match mu with
        | some u => if u = "" then c.defaultUnit else u
        | none => c.defaultUnit⟩
    | .num x => ⟨some x, c.defaultUnit⟩
    | _ => ⟨none, c.defaultUnit⟩

/-- What the widget emits back to the form engine: `handleValueChange` and
`handleUnitChange` both call `onChange` with the `MeasurementValue` object
itself (never a bare number). -/
def serialize (v : MeasurementValue) : RawValue :=
  .obj v.value (some v.unit)

/-- Events observable by the component: a magnitude edit (carrying the
`parseFloat` result, `none` when `NaN`), a unit selection, and a change of
the externally supplied `value` prop. -/
inductive WidgetEvent where
  | editMagnitude (n : Option ℚ)
  | changeUnit (u : String)
  | externalChange (raw : RawValue)

/-- Whether an event is a change of the external `value` prop. -/
def WidgetEvent.isExternal : WidgetEvent → Bool
  | .externalChange _ => true
  | _ => false

/-- The component's local state transition.  `editMagnitude` and
`changeUnit` follow `handleValueChange` / `handleUnitChange`.  The source
initialises `useState(parsedValue)` but contains no effect or handler that
reads a later `value` prop into local state — React's `useState` keeps the
stored state across re-renders — so an external change leaves the local
state untouched. -/
def widgetStep (c : MeasurementConfig) (s : MeasurementValue) :
    WidgetEvent → MeasurementValue
  | .editMagnitude n => ⟨n, s.unit⟩
  | .changeUnit u =>
    ⟨match s.value with
      | some x => some (convertValue c x s.unit u)
      | none => none,
     u⟩
  | .externalChange _ => s

/-- The initial local state: `useState(parsedValue)` evaluated at mount. -/
def widgetInit (c : MeasurementConfig) (raw : RawValue) : MeasurementValue :=
  parseValue c raw

-- Helper lemmas -------------------------------------------------------------

lemma roundTo_sub_abs (d : ℕ) (z : ℚ) :
    |roundTo d z - z| ≤ 1 / (2 * 10 ^ d) := by
  have h10 : (0 : ℚ) < 10 ^ d := by positivity
  have h : |((round (z * 10 ^ d) : ℤ) : ℚ) - z * 10 ^ d| ≤ 1 / 2 := by
    rw [abs_sub_comm]
    exact abs_sub_round _
  have heq : roundTo d z - z =
      (((round (z * 10 ^ d) : ℤ) : ℚ) - z * 10 ^ d) / 10 ^ d := by
    rw [roundTo]
    field_simp
    ring
  rw [heq, abs_div, abs_of_pos h10, div_le_iff₀ h10]
  have hb : (1 : ℚ) / (2 * 10 ^ d) * 10 ^ d = 1 / 2 := by
    field_simp
    ring
  rw [hb]
  exact h

lemma roundTo_eq (d : ℕ) (x : ℚ) (n : ℤ)
    (h1 : (n : ℚ) ≤ x * 10 ^ d + 1 / 2)
    (h2 : x * 10 ^ d + 1 / 2 < (n : ℚ) + 1) :
    roundTo d x = (n : ℚ) / 10 ^ d := by
  rw [roundTo, round_eq, Int.floor_eq_iff.mpr ⟨h1, by exact_mod_cast h2⟩]

lemma toBase_eq (uc : UnitConfig) (f val : ℚ)
    (h : descrFactor uc = some f) (hf : f ≠ 0) :
    toBase uc val = val / f := by
  unfold descrFactor at h
  unfold toBase
  cases hc : uc.conversion with
  | none =>
    rw [hc] at h
    simp only [Option.some.injEq] at h
    subst h
    simp
  | some d =>
    cases d with
    | linear g =>
      rw [hc] at h
      simp only [Option.some.injEq] at h
      subst h
      simp [hf]
    | fn g =>
      rw [hc] at h
      simp at h

lemma fromBase_eq (uc : UnitConfig) (f base : ℚ)
    (h : descrFactor uc = some f) (hf : f ≠ 0) :
    fromBase uc base = base * f := by
  unfold descrFactor at h
  unfold fromBase
  cases hc : uc.conversion with
  | none =>
    rw [hc] at h
    simp only [Option.some.injEq] at h
    subst h
    simp
  | some d =>
    cases d with
    | linear g =>
      rw [hc] at h
      simp only [Option.some.injEq] at h
      subst h
      simp [hf]
    | fn g =>
      rw [hc] at h
      simp at h

lemma convertValue_linear (c : MeasurementConfig) (u1 u2 : String)
    (f1 f2 x : ℚ)
    (h1 : linFactorOf c u1 = some f1) (h2 : linFactorOf c u2 = some f2)
    (hf1 : f1 ≠ 0) (hf2 : f2 ≠ 0) (hne : u1 ≠ u2) :
    convertValue c x u1 u2 = roundTo (effPrecision c) (x / f1 * f2) := by
  unfold convertValue
  rw [if_neg hne]
  unfold linFactorOf at h1 h2
  cases hu1 : findUnit c u1 with
  | none =>
    rw [hu1] at h1
    simp at h1
  | some fu =>
    cases hu2 : findUnit c u2 with
    | none =>
      rw [hu2] at h2
      simp at h2
    | some tu =>
      rw [hu1, Option.some_bind] at h1
      rw [hu2, Option.some_bind] at h2
      simp only [hu1, hu2]
      rw [toBase_eq fu f1 x h1 hf1, fromBase_eq tu f2 _ h2 hf2]

-- Claim theorems ------------------------------------------------------------

/-- C1: `convertValue` is claimed to round an actually-performed conversion
to `config.precision` decimal digits, with precision `0` rounding to whole
numbers.  The code rounds with `toFixed(config.precision || 1)`, so the
blood-glucose configuration (precision `0`) is rounded to one decimal
digit: converting 200 mg/dL to mmol/L yields `11.1`, not the whole number
`11` that precision `0` would demand. -/
theorem C1_precision_zero_bug :
    bloodGlucoseConfig.precision = some 0 ∧
    effPrecision bloodGlucoseConfig = 1 ∧
    convertValue bloodGlucoseConfig 200 "mg/dL" "mmol/L" = 11.1 ∧
    roundTo 0 (200 * (0.0555 : ℚ)) = 11 ∧
    (11.1 : ℚ) ≠ 11 := by
  refine ⟨rfl, rfl, ?_, ?_, by norm_num⟩
  · have h : convertValue bloodGlucoseConfig 200 "mg/dL" "mmol/L"
        = roundTo 1 (if (0.0555 : ℚ) = 0 then (200 : ℚ)
            else 200 * (0.0555 : ℚ)) := rfl
    rw [h, if_neg (by norm_num : ¬(0.0555 : ℚ) = 0),
      roundTo_eq 1 (200 * (0.0555 : ℚ)) 111 (by norm_num) (by norm_num)]
    norm_num
  · rw [roundTo_eq 0 (200 * (0.0555 : ℚ)) 11 (by norm_num) (by norm_num)]
    norm_num

/-- C10: `convert(x, u, u) = x` exactly, for every configuration, unit and
magnitude — the equal-units early return precedes lookup and rounding. -/
theorem C10_convert_identity (c : MeasurementConfig) (x : ℚ) (u : String) :
    convertValue c x u u = x := by
  simp [convertValue]

/-- C9: an unknown measurement-type name selects the weight configuration,
and a conversion in which either unit is missing from `config.units`
returns the input magnitude unchanged.  Both functions are total, so
neither case can throw. -/
theorem C9_fallbacks :
    (∀ name, name ∉ MEASUREMENT_CONFIGS.map Prod.fst →
      getConfig name = weightConfig) ∧
    (∀ (c : MeasurementConfig) (x : ℚ) (u1 u2 : String),
      findUnit c u1 = none ∨ findUnit c u2 = none →
      convertValue c x u1 u2 = x) := by
  constructor
  · intro name h
    unfold getConfig
    have hn : MEASUREMENT_CONFIGS.find? (fun p => p.1 == name) = none := by
      rw [List.find?_eq_none]
      intro p hp hbeq
      exact h (List.mem_map.mpr ⟨p, hp, by simpa using hbeq⟩)
    rw [hn]
  · intro c x u1 u2 h
    unfold convertValue
    by_cases he : u1 = u2
    · rw [if_pos he]
    · rw [if_neg he]
      rcases h with h | h
      · simp [h]
      · cases hf : findUnit c u1 <;> simp [h, hf]

/-- C9 witness: the concrete name `"bmi"` is unknown and the concrete unit
`"st"` is absent from the weight configuration. -/
theorem C9_fallbacks_witness :
    getConfig "bmi" = weightConfig ∧
    convertValue weightConfig 5 "st" "kg" = 5 := by
  constructor
  · exact C9_fallbacks.1 "bmi" (by decide)
  · exact C9_fallbacks.2 weightConfig 5 "st" "kg" (Or.inl rfl)

/-- C7 counterexample: converting 98.66 from fahrenheit (a function
descriptor, defined only base → unit) to celsius does *not* return the
input unchanged — the final rounding step still applies, giving 98.7. -/
theorem C7_rounded_not_unchanged_cex :
    convertValue temperatureConfig 98.66 "fahrenheit" "celsius" = 98.7 ∧
    (98.7 : ℚ) ≠ 98.66 := by
  constructor
  · have h : convertValue temperatureConfig 98.66 "fahrenheit" "celsius"
        = roundTo 1 (98.66 : ℚ) := rfl
    rw [h, roundTo_eq 1 (98.66 : ℚ) 987 (by norm_num) (by norm_num)]
    norm_num
  · norm_num

/-- C7 amended: converting from a unit whose descriptor is a one-argument
function neither applies nor inverts the function — the base value is
taken to be the input unchanged — but the result is the input *rounded to
the effective precision*, not the input itself. -/
theorem C7_fn_source_amended (val : ℚ) :
    (∃ g, (findUnit temperatureConfig "fahrenheit").map UnitConfig.conversion
        = some (some (.fn g))) ∧
    convertValue temperatureConfig val "fahrenheit" "celsius"
      = roundTo (effPrecision temperatureConfig) val := by
  exact ⟨⟨fun c => c * 9 / 5 + 32, rfl⟩, rfl⟩

/-- C3 counterexample: an object raw value carrying `value: 0` does not
keep magnitude 0 — `(value).value || null` treats `0` as falsy, so the
parsed magnitude is absent. -/
theorem C3_object_zero_cex :
    parseValue weightConfig (.obj (some 0) (some "kg")) = ⟨none, "kg"⟩ ∧
    MeasurementValue.mk (some 0) "kg" ≠ ⟨none, "kg"⟩ := by
  constructor <;> decide

/-- C3 amended: `parse` maps absent raw values to an absent magnitude with
the default unit; a plain number keeps its value *except `0`, which maps
to absent* (`!value`); an object passes `value`/`unit` through except that
`value: 0` becomes absent and a missing or empty-string `unit` defaults;
strings and booleans map to the absent magnitude.  All cases are total
(never throws). -/
theorem C3_parse_amended (c : MeasurementConfig) :
    parseValue c .absent = ⟨none, c.defaultUnit⟩ ∧
    (∀ x : ℚ, parseValue c (.num x)
        = ⟨if x = 0 then none else some x, c.defaultUnit⟩) ∧
    (∀ (mv : Option ℚ) (mu : Option String), parseValue c (.obj mv mu)
        = ⟨if mv = some 0 then none else mv,
           match mu with
           | some u => if u = "" then c.defaultUnit else u
           | none => c.defaultUnit⟩) ∧
    (∀ s, parseValue c (.str s) = ⟨none, c.defaultUnit⟩) ∧
    (∀ b, parseValue c (.bool b) = ⟨none, c.defaultUnit⟩) := by
  refine ⟨rfl, ?_, ?_, ?_, ?_⟩
  · intro x
    by_cases hx : x = 0
    · subst hx
      simp [parseValue, jsFalsy]
    · simp [parseValue, jsFalsy, hx]
  · intro mv mu
    cases mv with
    | none => simp [parseValue, jsFalsy]
    | some x =>
      by_cases hx : x = 0
      · subst hx
        simp [parseValue, jsFalsy]
      · simp [parseValue, jsFalsy, hx]
  · intro s
    by_cases hs : s = ""
    · subst hs
      simp [parseValue, jsFalsy]
    · simp [parseValue, jsFalsy, hs]
  · intro b
    cases b <;> simp [parseValue, jsFalsy]

/-- C4 counterexample: `"kg"` is a unit of the weight configuration, yet
the well-formed value `{value: 0, unit: "kg"}` does not round-trip —
parsing its serialised object form loses the zero magnitude. -/
theorem C4_roundtrip_zero_cex :
    "kg" ∈ weightConfig.units.map UnitConfig.value ∧
    parseValue weightConfig (serialize ⟨some 0, "kg"⟩) ≠ ⟨some 0, "kg"⟩ := by
  constructor <;> decide

/-- C4 amended: every unit symbol of every shipped configuration is a
nonempty string, and `parse (serialize v) = v` for every value whose unit
is a nonempty string and whose magnitude is not the number `0` (absent and
nonzero magnitudes round-trip; `0` does not, see the counterexample). -/
theorem C4_roundtrip_amended :
    (∀ c ∈ MEASUREMENT_CONFIGS.map Prod.snd, ∀ uc ∈ c.units,
      uc.value ≠ "") ∧
    (∀ (c : MeasurementConfig) (v : MeasurementValue),
      v.unit ≠ "" → v.value ≠ some 0 →
      parseValue c (serialize v) = v) := by
  constructor
  · decide
  · intro c v hu hv
    obtain ⟨mv, u⟩ := v
    cases mv with
    | none => simp [parseValue, serialize, jsFalsy, hu]
    | some x =>
      have hx : x ≠ 0 := by
        intro e
        exact hv (by rw [e])
      simp [parseValue, serialize, jsFalsy, hx, hu]

/-- C4 witness: the concrete value `{value: 5, unit: "kg"}` round-trips. -/
theorem C4_roundtrip_amended_witness :
    parseValue weightConfig (serialize ⟨some 5, "kg"⟩) = ⟨some 5, "kg"⟩ :=
  C4_roundtrip_amended.2 weightConfig ⟨some 5, "kg"⟩ (by decide) (by decide)

/-- C2 counterexample: a present magnitude of `0` (weight, kg) is outside
the critical range, so the claim demands `critical`, but
`!currentValue.value` treats `0` as absent and `classify` returns none. -/
theorem C2_zero_magnitude_cex :
    validationState weightConfig ⟨some 0, "kg"⟩ = none ∧
    rangeOutside (some ⟨30, 300⟩)
      (normalizeForValidation weightConfig 0 "kg") = true := by
  constructor
  · rfl
  · have h : normalizeForValidation weightConfig 0 "kg" = 0 := rfl
    rw [h]
    simp [rangeOutside]

/-- C2 amended: `classify` returns none exactly when the magnitude is
absent **or zero** or `config.ranges` is absent; for every present nonzero
magnitude with ranges defined it returns critical iff the base-normalised
value is outside `ranges.critical`, warning iff inside critical but
outside `ranges.normal`, and normal iff inside both — so the critical
check takes precedence as claimed. -/
theorem C2_classify_amended (c : MeasurementConfig) (v : MeasurementValue) :
    (validationState c v = none ↔
      v.value = none ∨ v.value = some 0 ∨ c.ranges = none) ∧
    (∀ (x : ℚ) (r : Ranges), v.value = some x → x ≠ 0 → c.ranges = some r →
      ((validationState c v = some Status.critical ↔
         rangeOutside r.critical (normalizeForValidation c x v.unit) = true) ∧
       (validationState c v = some Status.warning ↔
         rangeOutside r.critical (normalizeForValidation c x v.unit) = false ∧
         rangeOutside r.normal (normalizeForValidation c x v.unit) = true) ∧
       (validationState c v = some Status.normal ↔
         rangeOutside r.critical (normalizeForValidation c x v.unit) = false ∧
         rangeOutside r.normal (normalizeForValidation c x v.unit) = false))) := by
  obtain ⟨mv, u⟩ := v
  cases mv with
  | none =>
    constructor
    · simp [validationState]
    · intro x r hx hx0 hr
      exact absurd hx (by simp)
  | some val =>
    have hval : validationState c ⟨some val, u⟩ =
        if val = 0 then none
        else
          match c.ranges with
          | none => none
          | some ranges =>
            if rangeOutside ranges.critical (normalizeForValidation c val u)
              then some Status.critical
            else if rangeOutside ranges.normal (normalizeForValidation c val u)
              then some Status.warning
            else some Status.normal := rfl
    by_cases h0 : val = 0
    · subst h0
      constructor
      · simp [hval]
      · intro x r hx hx0 hr
        have : (0 : ℚ) = x := by simpa using hx
        exact absurd this.symm hx0
    · cases hr : c.ranges with
      | none =>
        constructor
        · simp [hval, hr, h0]
        · intro x r hx hx0 hrr
          exact absurd hrr (by simp)
      | some ranges =>
        rw [hval, hr]
        constructor
        · rw [if_neg h0]
          cases hc : rangeOutside ranges.critical (normalizeForValidation c val u) <;>
            cases hn : rangeOutside ranges.normal (normalizeForValidation c val u) <;>
              simp [hc, hn, h0]
        · intro x r hx hx0 hrr
          have hvx : val = x := by simpa using hx
          have hrr2 : ranges = r := by simpa using hrr
          subst hvx
          subst hrr2
          rw [if_neg h0]
          cases hc : rangeOutside ranges.critical (normalizeForValidation c val u) <;>
            cases hn : rangeOutside ranges.normal (normalizeForValidation c val u) <;>
              simp [hc, hn]

/-- C2 witness: a weight of 500 kg is present, nonzero and outside the
critical range, and is classified critical by the amended theorem. -/
theorem C2_classify_amended_witness :
    validationState weightConfig ⟨some 500, "kg"⟩ = some Status.critical := by
  have h := ((C2_classify_amended weightConfig ⟨some 500, "kg"⟩).2 500
      ⟨some ⟨40, 200⟩, some ⟨30, 300⟩⟩ rfl (by norm_num) rfl).1
  refine h.mpr ?_
  have hn : normalizeForValidation weightConfig 500 "kg" = 500 := rfl
  simp [hn, rangeOutside]
  norm_num

/-- C5 counterexample: for the linear pair (g, lb) of the weight
configuration, the round trip at x = 100 g yields 90.7 g — an error of
9.3, far beyond the claimed tolerance of 10^-precision = 0.1 (rounding in
the coarse lb unit loses ~half a pound, i.e. hundreds of grams). -/
theorem C5_roundtrip_tolerance_cex :
    convertValue weightConfig (convertValue weightConfig 100 "g" "lb")
      "lb" "g" = 90.7 ∧
    ¬ (|(90.7 : ℚ) - 100| ≤ 1 / 10 ^ 1) := by
  have h1 : convertValue weightConfig 100 "g" "lb" = 1 / 5 := by
    have e := convertValue_linear weightConfig "g" "lb" 1000 2.20462 100
      rfl rfl (by norm_num) (by norm_num) (by decide)
    rw [e]
    show roundTo 1 (100 / 1000 * (2.20462 : ℚ)) = 1 / 5
    rw [roundTo_eq 1 (100 / 1000 * (2.20462 : ℚ)) 2
      (by norm_num) (by norm_num)]
    norm_num
  have h2 : convertValue weightConfig (1 / 5) "lb" "g" = 90.7 := by
    have e := convertValue_linear weightConfig "lb" "g" 2.20462 1000 (1 / 5)
      rfl rfl (by norm_num) (by norm_num) (by decide)
    rw [e]
    show roundTo 1 (1 / 5 / (2.20462 : ℚ) * 1000) = 90.7
    rw [roundTo_eq 1 (1 / 5 / (2.20462 : ℚ) * 1000) 907
      (by norm_num) (by norm_num)]
    norm_num
  have habs : |(90.7 : ℚ) - 100| = 9.3 := by
    rw [abs_of_neg (by norm_num : (90.7 : ℚ) - 100 < 0)]
    norm_num
  refine ⟨?_, by rw [habs]; norm_num⟩
  rw [h1, h2]

/-- C5 amended: for every pair of linearly-convertible units with positive
factors f1, f2 (relative to the base unit, which has factor 1), the round
trip differs from x by at most (1 + f1/f2) · 10^-d / 2, where d is the
digit count actually used by the rounding (`precision`, except that
precision 0 or absent rounds at 1 digit).  The claimed uniform
10^-precision bound holds only when f1 ≤ f2; converting towards a coarser
unit (f1 > f2) amplifies the rounding error by f1/f2 (see the
counterexample). -/
theorem C5_roundtrip_amended (c : MeasurementConfig) (u1 u2 : String)
    (f1 f2 x : ℚ)
    (h1 : linFactorOf c u1 = some f1) (h2 : linFactorOf c u2 = some f2)
    (hf1 : 0 < f1) (hf2 : 0 < f2) :
    |convertValue c (convertValue c x u1 u2) u2 u1 - x|
      ≤ (1 + f1 / f2) / (2 * 10 ^ effPrecision c) := by
  by_cases hne : u1 = u2
  · subst hne
    have e : convertValue c x u1 u1 = x := by simp [convertValue]
    rw [e]
    have e2 : convertValue c x u1 u1 = x := by simp [convertValue]
    rw [e2, sub_self, abs_zero]
    positivity
  · have e1 : convertValue c x u1 u2 = roundTo (effPrecision c) (x / f1 * f2) :=
      convertValue_linear c u1 u2 f1 f2 x h1 h2 hf1.ne' hf2.ne' hne
    have e2 : convertValue c (roundTo (effPrecision c) (x / f1 * f2)) u2 u1
        = roundTo (effPrecision c)
            (roundTo (effPrecision c) (x / f1 * f2) / f2 * f1) :=
      convertValue_linear c u2 u1 f2 f1 _ h2 h1 hf2.ne' hf1.ne' (Ne.symm hne)
    rw [e1, e2]
    set d := effPrecision c with hd
    set z := x / f1 * f2 with hz
    set y := roundTo d z with hy
    have hbz : |y - z| ≤ 1 / (2 * 10 ^ d) := roundTo_sub_abs d z
    have hbr : |roundTo d (y / f2 * f1) - y / f2 * f1| ≤ 1 / (2 * 10 ^ d) :=
      roundTo_sub_abs d _
    have hxz : z / f2 * f1 = x := by
      rw [hz]
      field_simp
      ring
    have key : y / f2 * f1 - x = (y - z) * (f1 / f2) := by
      rw [← hxz]
      field_simp
      ring
    have habs : |y / f2 * f1 - x| ≤ 1 / (2 * 10 ^ d) * (f1 / f2) := by
      rw [key, abs_mul, abs_of_pos (div_pos hf1 hf2)]
      exact mul_le_mul_of_nonneg_right hbz (le_of_lt (div_pos hf1 hf2))
    calc |roundTo d (y / f2 * f1) - x|
        = |(roundTo d (y / f2 * f1) - y / f2 * f1) + (y / f2 * f1 - x)| := by
          congr 1
          ring
      _ ≤ |roundTo d (y / f2 * f1) - y / f2 * f1| + |y / f2 * f1 - x| :=
          abs_add _ _
      _ ≤ 1 / (2 * 10 ^ d) + 1 / (2 * 10 ^ d) * (f1 / f2) :=
          add_le_add hbr habs
      _ = (1 + f1 / f2) / (2 * 10 ^ d) := by
          ring

/-- C5 witness: the amended bound instantiated at the (g, lb) pair of the
weight configuration and x = 100. -/
theorem C5_roundtrip_amended_witness :
    |convertValue weightConfig (convertValue weightConfig 100 "g" "lb")
        "lb" "g" - 100|
      ≤ (1 + 1000 / (2.20462 : ℚ)) / (2 * 10 ^ effPrecision weightConfig) :=
  C5_roundtrip_amended weightConfig "g" "lb" 1000 2.20462 100 rfl rfl
    (by norm_num) (by norm_num)

/-- C6 counterexample: mount the widget with external value 5, then change
the external value to 7 — the local state still holds magnitude 5 while
parsing the engine's value would give 7, so the rendered magnitude does
not reflect the engine's current value. -/
theorem C6_stale_local_state_cex :
    widgetStep weightConfig (widgetInit weightConfig (.num 5))
        (.externalChange (.num 7))
      = widgetInit weightConfig (.num 5) ∧
    (widgetInit weightConfig (.num 5)).value
      ≠ (parseValue weightConfig (.num 7)).value := by
  constructor
  · rfl
  · decide

/-- C6 amended: the local state is initialised from the externally
supplied value once, at mount; thereafter only user events (magnitude
edits, unit changes) affect it — folding the step function over any event
trace gives the same state as folding over the trace with all external
value changes removed, i.e. the component never refreshes its local copy
from the engine's value. -/
theorem C6_no_external_resync_amended (c : MeasurementConfig) :
    (∀ raw, widgetInit c raw = parseValue c raw) ∧
    (∀ (s : MeasurementValue) (es : List WidgetEvent),
      List.foldl (widgetStep c) s es
        = List.foldl (widgetStep c) s
            (es.filter (fun e => !e.isExternal))) := by
  refine ⟨fun raw => rfl, ?_⟩
  intro s es
  induction es generalizing s with
  | nil => rfl
  | cons e es ih =>
    cases e with
    | editMagnitude n =>
      simpa [List.filter_cons, WidgetEvent.isExternal]
        using ih (widgetStep c s (.editMagnitude n))
    | changeUnit u =>
      simpa [List.filter_cons, WidgetEvent.isExternal]
        using ih (widgetStep c s (.changeUnit u))
    | externalChange raw =>
      have hs : widgetStep c s (.externalChange raw) = s := rfl
      simpa [List.filter_cons, WidgetEvent.isExternal, hs] using ih s

/-- C8: range classification does not normalise a magnitude whose unit
descriptor is a function — the fahrenheit value is compared raw against
the celsius thresholds — so every fahrenheit reading above 42 is
classified critical. -/
theorem C8_fahrenheit_unnormalized :
    (∀ val : ℚ,
      normalizeForValidation temperatureConfig val "fahrenheit" = val) ∧
    (∀ val : ℚ, 42 < val →
      validationState temperatureConfig ⟨some val, "fahrenheit"⟩
        = some Status.critical) := by
  constructor
  · intro val
    rfl
  · intro val h
    have h0 : val ≠ 0 := by
      intro e
      rw [e] at h
      norm_num at h
    have hv : validationState temperatureConfig ⟨some val, "fahrenheit"⟩ =
        if val = 0 then none
        else if rangeOutside (some ⟨35, 42⟩) val then some Status.critical
        else if rangeOutside (some ⟨36.1, 37.2⟩) val then some Status.warning
        else some Status.normal := rfl
    have hout : rangeOutside (some ⟨35, 42⟩) val = true := by
      simp [rangeOutside]
      right
      exact h
    rw [hv, if_neg h0, if_pos hout]

/-- C8 witness: a body temperature entered as 98.6 °F is classified
critical against the celsius thresholds. -/
theorem C8_fahrenheit_unnormalized_witness :
    validationState temperatureConfig ⟨some 98.6, "fahrenheit"⟩
      = some Status.critical :=
  C8_fahrenheit_unnormalized.2 98.6 (by norm_num)
